import Mathlib

/-!
Verification development for the Happy-TTS repository.

The definitions below are shallow embeddings of the Python sources:
`app.py` (the TTS application and its control HTTP service),
`.github/workflows/asyncio_action.py` (the GitHub Actions helper) and
`test.py` (the web-novel downloader).  External effects (the speech
synthesis API call, the similarity check over the history file, the
draws of `randint`, clock readings) are passed in explicitly as
parameters, and file contents are modelled as lists of lines / strings.
-/

/-! ### Base64 (Python `base64.b64encode`, standard alphabet),
used by the `/doing` endpoint of `app.py`. -/

def b64chars : List Char :=
  "ABCDEFGHIJKLMNOPQRSTUVWXYZabcdefghijklmnopqrstuvwxyz0123456789+/".toList

def encChar (n : Nat) : Char := b64chars.getD n 'A'

def findIdx0 (c : Char) : List Char → Option Nat
  | [] => none
  | d :: rest => if d = c then some 0 else (findIdx0 c rest).map (· + 1)

def decChar (c : Char) : Option Nat := findIdx0 c b64chars

def b64encode : List Nat → List Char
  | [] => []
  | [a] => [encChar (a / 4), encChar (a % 4 * 16), '=', '=']
  | [a, b] => [encChar (a / 4), encChar (a % 4 * 16 + b / 16), encChar (b % 16 * 4), '=']
  | a :: b :: c :: rest =>
      encChar (a / 4) :: encChar (a % 4 * 16 + b / 16) ::
        encChar (b % 16 * 4 + c / 64) :: encChar (c % 64) :: b64encode rest

def b64decode : List Char → Option (List Nat)
  | [] => some []
  | w :: x :: y :: z :: rest =>
    match decChar w, decChar x with
    | some p, some q =>
      if y = '=' then
        if z = '=' ∧ rest = [] then some [p * 4 + q / 16] else none
      else
        match decChar y with
        | some r =>
          if z = '=' then
            if rest = [] then some [p * 4 + q / 16, q % 16 * 16 + r / 4] else none
          else
            match decChar z with
            | some s =>
              match b64decode rest with
              | some tail =>
                  some ((p * 4 + q / 16) :: (q % 16 * 16 + r / 4) :: (r % 4 * 64 + s) :: tail)
              | none => none
            | none => none
        | none => none
    | _, _ => none
  | _ => none

theorem decChar_encChar : ∀ n : Nat, n < 64 → decChar (encChar n) = some n := by decide

theorem encChar_ne_pad : ∀ n : Nat, n < 64 → encChar n ≠ '=' := by decide

theorem b64_roundtrip_fuel :
    ∀ fuel (l : List Nat), l.length ≤ fuel → (∀ b ∈ l, b < 256) →
      b64decode (b64encode l) = some l := by
  intro fuel
  induction fuel with
  | zero =>
    intro l hl _
    have : l = [] := List.eq_nil_of_length_eq_zero (Nat.le_zero.mp hl)
    subst this
    decide
  | succ fuel ih =>
    intro l hl hb
    match l with
    | [] => decide
    | [a] =>
      have ha : a < 256 := hb a (by simp)
      have e1 := decChar_encChar (a / 4) (by omega)
      have e2 := decChar_encChar (a % 4 * 16) (by omega)
      simp [b64encode, b64decode, e1, e2]
      omega
    | [a, b] =>
      have ha : a < 256 := hb a (by simp)
      have hbb : b < 256 := hb b (by simp)
      have e1 := decChar_encChar (a / 4) (by omega)
      have e2 := decChar_encChar (a % 4 * 16 + b / 16) (by omega)
      have e3 := decChar_encChar (b % 16 * 4) (by omega)
      have n3 := encChar_ne_pad (b % 16 * 4) (by omega)
      simp [b64encode, b64decode, e1, e2, e3, n3]
      constructor <;> omega
    | a :: b :: c :: rest =>
      have ha : a < 256 := hb a (by simp)
      have hbb : b < 256 := hb b (by simp)
      have hc : c < 256 := hb c (by simp)
      have e1 := decChar_encChar (a / 4) (by omega)
      have e2 := decChar_encChar (a % 4 * 16 + b / 16) (by omega)
      have e3 := decChar_encChar (b % 16 * 4 + c / 64) (by omega)
      have e4 := decChar_encChar (c % 64) (by omega)
      have n3 := encChar_ne_pad (b % 16 * 4 + c / 64) (by omega)
      have n4 := encChar_ne_pad (c % 64) (by omega)
      have hrest : b64decode (b64encode rest) = some rest := by
        apply ih rest (by simp at hl; omega)
        intro x hx
        exact hb x (by simp [hx])
      simp [b64encode, b64decode, e1, e2, e3, e4, n3, n4, hrest]
      omega

theorem b64_roundtrip (l : List Nat) (hb : ∀ b ∈ l, b < 256) :
    b64decode (b64encode l) = some l :=
  b64_roundtrip_fuel l.length l le_rfl hb

/-! ### UTF-8 byte encoding (Python `str.encode("utf-8")`) -/

def charUtf8 (n : Nat) : List Nat :=
  if n < 128 then [n]
  else if n < 2048 then [192 + n / 64, 128 + n % 64]
  else if n < 65536 then [224 + n / 4096, 128 + n / 64 % 64, 128 + n % 64]
  else [240 + n / 262144, 128 + n / 4096 % 64, 128 + n / 64 % 64, 128 + n % 64]

def utf8Bytes (s : String) : List Nat :=
  (s.data.map (fun c => charUtf8 c.toNat)).flatten

theorem char_toNat_lt (c : Char) : c.toNat < 1114112 := by
  rcases c.valid with h | ⟨_, h2⟩
  · exact Nat.lt_trans h (by norm_num)
  · exact h2

theorem charUtf8_lt (n : Nat) (hn : n < 1114112) : ∀ b ∈ charUtf8 n, b < 256 := by
  intro b hbm
  unfold charUtf8 at hbm
  split_ifs at hbm <;>
    simp only [List.mem_cons, List.not_mem_nil, or_false] at hbm <;>
    omega

theorem utf8Bytes_lt (s : String) : ∀ b ∈ utf8Bytes s, b < 256 := by
  intro b hbm
  simp only [utf8Bytes, List.mem_flatten, List.mem_map] at hbm
  obtain ⟨l, ⟨c, _, rfl⟩, hbl⟩ := hbm
  exact charUtf8_lt c.toNat (char_toNat_lt c) b hbl

/-! ### Python `json.dumps(\x7b"text": t\x7d)` with the default
`ensure_ascii=True` escaping rules -/

def hexDigits : List Char := "0123456789abcdef".toList

def hex4 (n : Nat) : String :=
  String.mk [hexDigits.getD (n / 4096 % 16) '0', hexDigits.getD (n / 256 % 16) '0',
    hexDigits.getD (n / 16 % 16) '0', hexDigits.getD (n % 16) '0']

def uEscape (n : Nat) : String := "\\u" ++ hex4 n

def jsonEscapeChar (c : Char) : String :=
  if c = '"' then "\\\""
  else if c = '\\' then "\\\\"
  else if c = '\n' then "\\n"
  else if c = '\t' then "\\t"
  else if c = '\r' then "\\r"
  else if c.toNat = 8 then "\\b"
  else if c.toNat = 12 then "\\f"
  else if c.toNat < 32 then uEscape c.toNat
  else if c.toNat < 127 then String.singleton c
  else if c.toNat < 65536 then uEscape c.toNat
  else uEscape (55296 + (c.toNat - 65536) / 1024) ++ uEscape (56320 + (c.toNat - 65536) % 1024)

def jsonDumpsTextObj (t : String) : String :=
  "\x7b\"text\": \"" ++ String.join (t.data.map jsonEscapeChar) ++ "\"\x7d"

/-! ### Control/monitoring HTTP service endpoints of `app.py`

`correct_password = os.getenv("SERVER_PASSWORD")` is `None` when the
variable is unset; `request.args.get("password")` is `None` when the
query parameter is absent.  Both are modelled as `Option String`, and
the Python `==` comparison between them as equality of options
(`None == None` is `True` in Python, matching `none = none`). -/

inductive DoingResp where
  | ok (data : String)
  | err (error : String)
deriving DecidableEq

/-- Route `GET /doing` (final revision, `app.py` lines 779-796): on a password
match, the current processing text is serialised with `json.dumps`,
Base64-encoded and wrapped in a `data` envelope with HTTP 200; on a
mismatch the fixed error body is returned with HTTP 401. -/
def doing (password correct_password : Option String)
    (current_processing_text : String) : DoingResp × Nat :=
  if password = correct_password then
    (DoingResp.ok (String.mk (b64encode (utf8Bytes (jsonDumpsTextObj current_processing_text)))),
      200)
  else
    (DoingResp.err "Invalid password", 401)

structure StatusInfo where
  boot_time : String
  uptime : Nat
  cpu_usage_percent : Nat
  memory_used : Nat
  memory_total : Nat
  memory_percent : Nat
deriving DecidableEq

/-- The values drawn by the five `randint` calls in the wrong-password
branch of `/server_status`. -/
structure Draws where
  uptime : Nat
  cpu : Nat
  mem_used : Nat
  mem_total : Nat
  mem_percent : Nat
deriving DecidableEq

/-- Python `randint(lo, hi)` is inclusive on both ends; this predicate captures
exactly the possible outcomes of the five draws in `app.py` lines 889-902. -/
def drawsValid (d : Draws) : Prop :=
  1800 ≤ d.uptime ∧ d.uptime ≤ 36000 ∧
  5 ≤ d.cpu ∧ d.cpu ≤ 95 ∧
  500 * 1024 * 1024 ≤ d.mem_used ∧ d.mem_used ≤ 8 * 1024 * 1024 * 1024 ∧
  2 * 1024 * 1024 * 1024 ≤ d.mem_total ∧ d.mem_total ≤ 16 * 1024 * 1024 * 1024 ∧
  5 ≤ d.mem_percent ∧ d.mem_percent ≤ 95

instance (d : Draws) : Decidable (drawsValid d) := by
  unfold drawsValid
  infer_instance

/-- The fabricated payload built in the wrong-password branch of
`/server_status`. -/
def decoyStatus (d : Draws) : StatusInfo :=
  { boot_time := "2023-01-01 00:00:00", uptime := d.uptime, cpu_usage_percent := d.cpu,
    memory_used := d.mem_used, memory_total := d.mem_total, memory_percent := d.mem_percent }

/-- Route `GET /server_status` (`app.py` lines 857-904): real `psutil` data on
a password match, the fabricated `randint` payload on a mismatch; the
handler ends with `return jsonify(status_info), 200` in both branches. -/
def server_status (password correct_password : Option String)
    (real : StatusInfo) (d : Draws) : StatusInfo × Nat :=
  if password = correct_password then (real, 200) else (decoyStatus d, 200)

inductive HelloResp where
  | real (msg : String)
  | crash (exceptionName : String)
deriving DecidableEq

/-- Route `GET /hello` (`app.py` lines 907-923): fixed greeting on a match.
The mismatch branch evaluates `random.choices(string.ascii_letters + ...)`,
but `app.py` imports only `randint` from `random` and never imports the
modules `random` or `string`, so that branch raises an unhandled
`NameError` instead of producing the decoy string. -/
def hello (password correct_password : Option String) : HelloResp :=
  if password = correct_password then
    HelloResp.real "Hello, this is my Gradio project!"
  else
    HelloResp.crash "NameError"

/-! ### Claims C3, C4, C6: password gates of the control endpoints -/

/-- C6: for every GET request to `/doing`, a supplied password equal to
the configured one yields HTTP 200 whose `data` field Base64-decodes to
the `json.dumps` serialisation of the object with key `text` and the
current processing value; a differing password yields HTTP 401 with the
fixed explicit error body (which is never the real in-progress text). -/
theorem doing_password_gate (pw cp : Option String) (cur : String) :
    (pw = cp →
      doing pw cp cur =
        (DoingResp.ok (String.mk (b64encode (utf8Bytes (jsonDumpsTextObj cur)))), 200) ∧
      b64decode (String.mk (b64encode (utf8Bytes (jsonDumpsTextObj cur)))).data =
        some (utf8Bytes (jsonDumpsTextObj cur))) ∧
    (pw ≠ cp → doing pw cp cur = (DoingResp.err "Invalid password", 401)) := by
  constructor
  · intro h
    refine ⟨by simp [doing, h], ?_⟩
    show b64decode (b64encode (utf8Bytes (jsonDumpsTextObj cur))) = _
    exact b64_roundtrip _ (utf8Bytes_lt _)
  · intro h
    simp [doing, h]

/-- Witness for C6 at concrete inputs, discharging both hypotheses. -/
theorem doing_password_gate_witness :
    (doing (some "wmy") (some "wmy") "hello" =
        (DoingResp.ok (String.mk (b64encode (utf8Bytes (jsonDumpsTextObj "hello")))), 200) ∧
      b64decode (String.mk (b64encode (utf8Bytes (jsonDumpsTextObj "hello")))).data =
        some (utf8Bytes (jsonDumpsTextObj "hello"))) ∧
    doing (some "bad") (some "wmy") "hello" = (DoingResp.err "Invalid password", 401) :=
  ⟨(doing_password_gate (some "wmy") (some "wmy") "hello").1 rfl,
   (doing_password_gate (some "bad") (some "wmy") "hello").2 (by decide)⟩

/-- C3 counterexample: with `SERVER_PASSWORD` unset (`correct_password`
is `None`) a request to `/doing` that supplies no `password` query
parameter compares `None == None`, which succeeds, and the REAL payload
is returned with HTTP 200 — contradicting the claim that every password
comparison fails and the real payload is never returned. -/
theorem doing_unset_password_no_param_counterexample :
    doing none none "secret" =
      (DoingResp.ok (String.mk (b64encode (utf8Bytes (jsonDumpsTextObj "secret")))), 200) := by
  simp [doing]

/-- C3 (amended): when `SERVER_PASSWORD` is unset, every request that
supplies a password query parameter fails the comparison on `/doing`
(explicit 401), `/server_status` (decoy payload) and `/hello` (the
mismatch branch raises `NameError`, since `random`/`string` are not
imported), so such requests never receive the real payload; but a
request that supplies no password parameter at all compares `None` with
`None`, succeeds, and receives the real payload. -/
theorem unset_password_gate (s cur : String) (real : StatusInfo) (d : Draws) :
    doing (some s) none cur = (DoingResp.err "Invalid password", 401) ∧
    server_status (some s) none real d = (decoyStatus d, 200) ∧
    hello (some s) none = HelloResp.crash "NameError" ∧
    doing none none cur =
      (DoingResp.ok (String.mk (b64encode (utf8Bytes (jsonDumpsTextObj cur)))), 200) := by
  refine ⟨?_, ?_, ?_, ?_⟩ <;> simp [doing, server_status, hello]

def realStatus0 : StatusInfo :=
  { boot_time := "", uptime := 0, cpu_usage_percent := 0,
    memory_used := 0, memory_total := 0, memory_percent := 0 }

def drawsUsedHigh : Draws :=
  { uptime := 1800, cpu := 5, mem_used := 8 * 1024 * 1024 * 1024,
    mem_total := 2 * 1024 * 1024 * 1024, mem_percent := 5 }

/-- C4 counterexample: the five `randint` draws of the decoy branch are
independent, so `memory_used` may legally draw 8 GiB while the paired
`memory_total` draws 2 GiB; on a wrong-password call the fabricated
payload then has `memory_used` strictly greater than `memory_total`. -/
theorem server_status_decoy_used_exceeds_total :
    drawsValid drawsUsedHigh ∧
    (server_status (some "bad") (some "wmy") realStatus0 drawsUsedHigh).2 = 200 ∧
    (server_status (some "bad") (some "wmy") realStatus0 drawsUsedHigh).1.memory_total <
      (server_status (some "bad") (some "wmy") realStatus0 drawsUsedHigh).1.memory_used := by
  refine ⟨by decide, by decide, by decide⟩

/-- C4 (amended): on every wrong-password call to `/server_status` the
fabricated payload has HTTP status 200, an integer `cpu_usage_percent`
in [5, 95], `uptime` in [1800, 36000], `memory_total` in [2 GiB, 16 GiB]
and `memory_used` in [500 MiB, 8 GiB]; `memory_used` is drawn
independently of `memory_total` and can exceed it. -/
theorem server_status_decoy_ranges (pw cp : Option String) (real : StatusInfo) (d : Draws)
    (hpw : pw ≠ cp) (hd : drawsValid d) :
    (server_status pw cp real d).2 = 200 ∧
    5 ≤ (server_status pw cp real d).1.cpu_usage_percent ∧
    (server_status pw cp real d).1.cpu_usage_percent ≤ 95 ∧
    1800 ≤ (server_status pw cp real d).1.uptime ∧
    (server_status pw cp real d).1.uptime ≤ 36000 ∧
    2 * 1024 * 1024 * 1024 ≤ (server_status pw cp real d).1.memory_total ∧
    (server_status pw cp real d).1.memory_total ≤ 16 * 1024 * 1024 * 1024 ∧
    500 * 1024 * 1024 ≤ (server_status pw cp real d).1.memory_used ∧
    (server_status pw cp real d).1.memory_used ≤ 8 * 1024 * 1024 * 1024 := by
  obtain ⟨h1, h2, h3, h4, h5, h6, h7, h8, _, _⟩ := hd
  refine ⟨?_, ?_, ?_, ?_, ?_, ?_, ?_, ?_, ?_⟩ <;>
    simp [server_status, if_neg hpw, decoyStatus] <;> omega

def drawsMid : Draws :=
  { uptime := 2000, cpu := 50, mem_used := 600 * 1024 * 1024,
    mem_total := 4 * 1024 * 1024 * 1024, mem_percent := 40 }

/-- Witness for the amended C4 at a concrete wrong-password call. -/
theorem server_status_decoy_ranges_witness :
    ((some "x" : Option String) ≠ some "wmy") ∧ drawsValid drawsMid ∧
    ((server_status (some "x") (some "wmy") realStatus0 drawsMid).2 = 200 ∧
      5 ≤ (server_status (some "x") (some "wmy") realStatus0 drawsMid).1.cpu_usage_percent ∧
      (server_status (some "x") (some "wmy") realStatus0 drawsMid).1.cpu_usage_percent ≤ 95 ∧
      1800 ≤ (server_status (some "x") (some "wmy") realStatus0 drawsMid).1.uptime ∧
      (server_status (some "x") (some "wmy") realStatus0 drawsMid).1.uptime ≤ 36000 ∧
      2 * 1024 * 1024 * 1024 ≤
        (server_status (some "x") (some "wmy") realStatus0 drawsMid).1.memory_total ∧
      (server_status (some "x") (some "wmy") realStatus0 drawsMid).1.memory_total ≤
        16 * 1024 * 1024 * 1024 ∧
      500 * 1024 * 1024 ≤
        (server_status (some "x") (some "wmy") realStatus0 drawsMid).1.memory_used ∧
      (server_status (some "x") (some "wmy") realStatus0 drawsMid).1.memory_used ≤
        8 * 1024 * 1024 * 1024) :=
  ⟨by decide, by decide,
    server_status_decoy_ranges (some "x") (some "wmy") realStatus0 drawsMid
      (by decide) (by decide)⟩

/-! ### The speech synthesis pipeline `tts` of `app.py` (lines 248-322)

`generate_text_hash` mixes the process-local Python `hash()` with an MD5
digest, so the hash function is passed in as a parameter (`textHash`);
only membership in the duplicate set matters for the control flow.  The
result of `check_similarity` (a difflib ratio over the history file) and
the success of the external OpenAI call are likewise supplied by the
environment.  State tracks the duplicate set, the rate limiter, the
shared "currently processing" marker, the history file appends and the
number of outbound API calls. -/

structure RateLimiter where
  calls : List Int
  max_calls : Nat
  period : Int
deriving DecidableEq

/-- Method `RateLimiter.attempt` (`app.py` lines 122-128): prune timestamps
older than `period`, allow and record `now` when fewer than `max_calls`
remain. The pruned list is kept even on denial. -/
def RateLimiter.attempt (r : RateLimiter) (now : Int) : Bool × RateLimiter :=
  let kept := r.calls.filter (fun c => decide (c > now - r.period))
  if kept.length < r.max_calls then (true, { r with calls := kept ++ [now] })
  else (false, { r with calls := kept })

structure TtsState where
  processed_texts : List String
  limiter : RateLimiter
  current_processing_text : String
  history : List String
  outbound_calls : Nat
deriving DecidableEq

structure TtsEnv where
  textHash : String → String
  similar : Bool
  apiOk : Bool
  now : Int
  tmpName : String

inductive TtsResult where
  | ok (file : String)
  | error (msg : String)
deriving DecidableEq

structure TtsOut where
  result : TtsResult
  state : TtsState

/-- Shallow embedding of `tts` (`app.py` lines 248-322).  The Chinese
message strings are the exact `gr.Error` messages of the source. -/
def tts (env : TtsEnv) (st0 : TtsState) (text : String) (custom : Option String) : TtsOut :=
  let st1 := { st0 with current_processing_text := text }
  let text_hash := env.textHash text
  if text_hash ∈ st1.processed_texts then
    { result := TtsResult.error "重复的请求，不做处理。", state := st1 }
  else
    let st2 := { st1 with processed_texts := text_hash :: st1.processed_texts }
    match st2.limiter.attempt env.now with
    | (false, lim) =>
      { result := TtsResult.error "超出请求频率限制，请稍后再试。",
        state := { st2 with limiter := lim } }
    | (true, lim) =>
      let st3 := { st2 with limiter := lim }
      if text.length = 0 then
        { result := TtsResult.ok "1-second-of-silence.mp3", state := st3 }
      else if env.similar then
        { result := TtsResult.error "此内容与之前处理的内容相似度超过90%，不进行处理。",
          state := st3 }
      else
        let st4 := { st3 with
          history := st3.history ++ [text],
          outbound_calls := st3.outbound_calls + 1 }
        if env.apiOk then
          let file_name := match custom with | some n => n | none => env.tmpName
          { result := TtsResult.ok ("finish/" ++ file_name),
            state := { st4 with current_processing_text := "" } }
        else
          { result := TtsResult.error "生成语音时出现错误，请向站点管理员报告。",
            state := { st4 with current_processing_text := "" } }

def envId : TtsEnv :=
  { textHash := fun t => t, similar := false, apiOk := true, now := 0, tmpName := "tmp.mp3" }

def ttsState0 : TtsState :=
  { processed_texts := [], limiter := { calls := [], max_calls := 5, period := 30 },
    current_processing_text := "", history := [], outbound_calls := 0 }

/-! ### Claims C2, C7, C10: behaviour of the `tts` pipeline -/

/-- C2 counterexample: calling `tts` with the empty text (hash not yet
in the duplicate set, rate limiter permitting) does return the fixed
silence file and makes no outbound call, but `processed_texts.add` runs
BEFORE the length-zero check (`app.py` line 270 precedes line 279), so
the in-memory duplicate set is NOT unchanged: the empty text's hash has
been inserted. -/
theorem tts_empty_text_set_changed :
    (tts envId ttsState0 "" none).result = TtsResult.ok "1-second-of-silence.mp3" ∧
    (tts envId ttsState0 "" none).state.outbound_calls = ttsState0.outbound_calls ∧
    (tts envId ttsState0 "" none).state.processed_texts ≠ ttsState0.processed_texts := by
  refine ⟨by decide, by decide, by decide⟩

/-- C2 (amended): for an empty text whose hash is not in the duplicate
set, with the rate limiter permitting, `tts` returns the fixed silence
file reference, makes no outbound speech-synthesis call and appends
nothing to the history file — but it does insert the empty text's hash
into the in-memory duplicate set before short-circuiting. -/
theorem tts_empty_text (env : TtsEnv) (st : TtsState)
    (hdup : env.textHash "" ∉ st.processed_texts)
    (hrate : (st.limiter.calls.filter
        (fun c => decide (c > env.now - st.limiter.period))).length < st.limiter.max_calls) :
    (tts env st "" none).result = TtsResult.ok "1-second-of-silence.mp3" ∧
    (tts env st "" none).state.outbound_calls = st.outbound_calls ∧
    (tts env st "" none).state.history = st.history ∧
    (tts env st "" none).state.processed_texts = env.textHash "" :: st.processed_texts := by
  simp [tts, RateLimiter.attempt, hdup, hrate]

/-- Witness for the amended C2 at a concrete call. -/
theorem tts_empty_text_witness :
    (envId.textHash "" ∉ ttsState0.processed_texts) ∧
    ((ttsState0.limiter.calls.filter
        (fun c => decide (c > envId.now - ttsState0.limiter.period))).length <
      ttsState0.limiter.max_calls) ∧
    ((tts envId ttsState0 "" none).result = TtsResult.ok "1-second-of-silence.mp3" ∧
      (tts envId ttsState0 "" none).state.outbound_calls = ttsState0.outbound_calls ∧
      (tts envId ttsState0 "" none).state.history = ttsState0.history ∧
      (tts envId ttsState0 "" none).state.processed_texts =
        envId.textHash "" :: ttsState0.processed_texts) :=
  ⟨by decide, by decide, tts_empty_text envId ttsState0 (by decide) (by decide)⟩

def envSim : TtsEnv :=
  { textHash := fun t => t, similar := true, apiOk := true, now := 0, tmpName := "tmp.mp3" }

/-- C7 counterexample: the similarity rejection (`raise gr.Error` at
`app.py` line 285) sits before the `try/finally` that clears the marker
(the `try` only opens at line 294, and the `finally` at line 308 is the
sole clearing on failure paths), so this third exit path also leaves the
shared "currently processing" marker set to the submitted text.  The
call below is neither of the two exit paths the claim exempts — its
result is the similarity error, not the duplicate or rate-limit error —
yet on exit the marker still holds the submitted text "hello" and is not
the empty string, refuting "every exit path ... except exactly the two
earliest-return rejection paths" at this input. -/
theorem tts_similarity_marker_not_cleared :
    (tts envSim ttsState0 "hello" none).result =
      TtsResult.error "此内容与之前处理的内容相似度超过90%，不进行处理。" ∧
    (tts envSim ttsState0 "hello" none).result ≠
      TtsResult.error "重复的请求，不做处理。" ∧
    (tts envSim ttsState0 "hello" none).result ≠
      TtsResult.error "超出请求频率限制，请稍后再试。" ∧
    (tts envSim ttsState0 "hello" none).state.current_processing_text = "hello" ∧
    (tts envSim ttsState0 "hello" none).state.current_processing_text ≠ "" := by
  refine ⟨by decide, by decide, by decide, by decide, by decide⟩

/-- C7 (amended): on exit from `tts` the shared marker is the empty
string on the success and external-API-failure paths, while the
duplicate, rate-limit and similarity rejection paths all leave it set to
the submitted text; the empty-text short-circuit also leaves it equal to
the submitted text, which in that case is the empty string. -/
theorem tts_marker_on_exit (env : TtsEnv) (st : TtsState) (text : String)
    (custom : Option String) :
    (tts env st text custom).state.current_processing_text =
      if env.textHash text ∈ st.processed_texts then text
      else if (st.limiter.calls.filter
          (fun c => decide (c > env.now - st.limiter.period))).length <
            st.limiter.max_calls then
        (if text.length = 0 then text else if env.similar then text else "")
      else text := by
  by_cases h1 : env.textHash text ∈ st.processed_texts
  · simp [tts, h1]
  · by_cases h2 : (st.limiter.calls.filter
        (fun c => decide (c > env.now - st.limiter.period))).length < st.limiter.max_calls
    · by_cases h3 : text.length = 0
      · simp [tts, RateLimiter.attempt, h1, h2, h3]
      · by_cases h4 : env.similar
        · simp [tts, RateLimiter.attempt, h1, h2, h3, h4]
        · by_cases h5 : env.apiOk <;>
            simp [tts, RateLimiter.attempt, h1, h2, h3, h4, h5]
    · simp [tts, RateLimiter.attempt, h1, h2]

/-- Helper: a text whose hash is already in the duplicate set is
rejected with the duplicate error (`app.py` lines 264-268). -/
theorem tts_duplicate_rejected (env : TtsEnv) (st : TtsState) (text : String)
    (custom : Option String) (h : env.textHash text ∈ st.processed_texts) :
    (tts env st text custom).result = TtsResult.error "重复的请求，不做处理。" := by
  simp [tts, h]

/-- C10: for a non-empty text whose hash is not yet present, `tts`
inserts the hash into the duplicate set before the rate-limit and
similarity checks (the insertion survives every rejection and failure
path), and an identical retry against the resulting state is rejected
as a duplicate. -/
theorem tts_hash_inserted_and_retry_duplicate (env : TtsEnv) (st : TtsState) (text : String)
    (custom : Option String) (_hne : text ≠ "")
    (hdup : env.textHash text ∉ st.processed_texts) :
    (tts env st text custom).state.processed_texts =
      env.textHash text :: st.processed_texts ∧
    (tts env (tts env st text custom).state text custom).result =
      TtsResult.error "重复的请求，不做处理。" := by
  have h1 : (tts env st text custom).state.processed_texts =
      env.textHash text :: st.processed_texts := by
    by_cases h2 : (st.limiter.calls.filter
        (fun c => decide (c > env.now - st.limiter.period))).length < st.limiter.max_calls
    · by_cases h3 : text.length = 0
      · simp [tts, RateLimiter.attempt, hdup, h2, h3]
      · by_cases h4 : env.similar
        · simp [tts, RateLimiter.attempt, hdup, h2, h3, h4]
        · by_cases h5 : env.apiOk <;>
            simp [tts, RateLimiter.attempt, hdup, h2, h3, h4, h5]
    · simp [tts, RateLimiter.attempt, hdup, h2]
  exact ⟨h1, tts_duplicate_rejected env _ text custom
    (by rw [h1]; exact List.mem_cons_self _ _)⟩

/-- Witness for C10 at a concrete call. -/
theorem tts_hash_inserted_witness :
    ("hi" ≠ "") ∧ (envId.textHash "hi" ∉ ttsState0.processed_texts) ∧
    ((tts envId ttsState0 "hi" none).state.processed_texts =
        envId.textHash "hi" :: ttsState0.processed_texts ∧
      (tts envId (tts envId ttsState0 "hi" none).state "hi" none).result =
        TtsResult.error "重复的请求，不做处理。") :=
  ⟨by decide, by decide,
    tts_hash_inserted_and_retry_duplicate envId ttsState0 "hi" none (by decide) (by decide)⟩

/-! ### Claim C8: the IP-cache trim `check_and_trim_file` of `app.py`
(lines 929-944); `MAX_LINES = 200`. -/

def MAX_LINES : Nat := 200

/-- Function `check_and_trim_file` on the list of lines of `ip_data.txt`: rewrite
the file with its first `MAX_LINES` lines when it has more, leave it
unchanged otherwise. -/
def check_and_trim_file (lines : List String) : List String :=
  if lines.length > MAX_LINES then lines.take MAX_LINES else lines

/-- C8: the periodic trim keeps exactly the first 200 lines when the
file has more than 200 lines, and leaves the file unchanged when it has
200 lines or fewer. -/
theorem check_and_trim_file_spec (lines : List String) :
    (lines.length > 200 → check_and_trim_file lines = lines.take 200) ∧
    (lines.length ≤ 200 → check_and_trim_file lines = lines) := by
  constructor
  · intro h
    simp [check_and_trim_file, MAX_LINES, h]
  · intro h
    simp [check_and_trim_file, MAX_LINES]
    omega

def cacheLines250 : List String := (List.range 250).map (fun n => toString n)

/-- Witness for C8: a 250-line cache file is trimmed to exactly its
first 200 lines, and a 200-line file is left unchanged. -/
theorem check_and_trim_file_spec_witness :
    (cacheLines250.length > 200 ∧ check_and_trim_file cacheLines250 = cacheLines250.take 200) ∧
    ((cacheLines250.take 200).length ≤ 200 ∧
      check_and_trim_file (cacheLines250.take 200) = cacheLines250.take 200) :=
  ⟨⟨by simp [cacheLines250], (check_and_trim_file_spec cacheLines250).1 (by simp [cacheLines250])⟩,
   ⟨by simp [cacheLines250], (check_and_trim_file_spec (cacheLines250.take 200)).2
      (by simp [cacheLines250])⟩⟩

/-! ### Claim C9: the `@app.before_request` hook `limit_requests`
(`app.py` lines 535-554) with `TIME_WINDOW = 60`, `MAX_ATTEMPTS = 1`.

Flask runs a `before_request` hook before EVERY route handler of the
application; when the hook returns a response, the route handler is
skipped.  `failed_attempts[ip]` is a list of `(timestamp, count)` pairs;
the `/email` handler appends `(now, 1)` on each wrong password.  The
hook is modelled per requesting IP: `attempts` is `none` when the IP has
no entry in `failed_attempts`. -/

def TIME_WINDOW : Int := 60

def MAX_ATTEMPTS : Nat := 1

/-- The pruning step: keep attempts whose age is under the window. -/
def prune_attempts (now : Int) (l : List (Int × Nat)) : List (Int × Nat) :=
  l.filter (fun p => decide (now - p.1 < TIME_WINDOW))

/-- Hook `limit_requests`: `some` of the 429 response when the summed counts
of the kept attempts reach `MAX_ATTEMPTS`, otherwise `none` (fall
through to the route handler). -/
def limit_requests (now : Int) (attempts : Option (List (Int × Nat))) :
    Option (Nat × String) :=
  match attempts with
  | none => none
  | some l =>
    let kept := prune_attempts now l
    if MAX_ATTEMPTS ≤ (kept.map Prod.snd).sum then
      some (429, "过多的错误尝试，请稍后重试。")
    else none

/-- Request dispatch: the hook short-circuits every route of the Flask
application; only when it returns `none` does the route handler run. -/
def dispatch_request (now : Int) (attempts : Option (List (Int × Nat)))
    (handler : Nat × String) : Nat × String :=
  match limit_requests now attempts with
  | some resp => resp
  | none => handler

/-- C9: if the requesting IP has at least one recorded failed `/email`
attempt (each is recorded with count 1) within the preceding 60 seconds,
the before-request hook answers HTTP 429 for EVERY route — the handler
(universally quantified here) never runs. -/
theorem lockout_service_wide (now : Int) (l : List (Int × Nat)) (handler : Nat × String)
    (h : ∃ p ∈ l, now - p.1 < TIME_WINDOW ∧ 1 ≤ p.2) :
    dispatch_request now (some l) handler = (429, "过多的错误尝试，请稍后重试。") := by
  obtain ⟨p, hp, ht, hc⟩ := h
  have hkept : p ∈ prune_attempts now l := by
    simp [prune_attempts, List.mem_filter, hp, ht]
  have hmem : p.2 ∈ (prune_attempts now l).map Prod.snd := List.mem_map_of_mem _ hkept
  have hsum : p.2 ≤ ((prune_attempts now l).map Prod.snd).sum :=
    List.single_le_sum (fun x _ => Nat.zero_le x) _ hmem
  have hcond : MAX_ATTEMPTS ≤ ((prune_attempts now l).map Prod.snd).sum := by
    simp only [MAX_ATTEMPTS]
    omega
  simp [dispatch_request, limit_requests, hcond]

/-- Witness for C9: an IP with one failed attempt 10 seconds ago is
locked out of an arbitrary other route. -/
theorem lockout_service_wide_witness :
    (∃ p ∈ [((50 : Int), (1 : Nat))], (60 : Int) - p.1 < TIME_WINDOW ∧ 1 ≤ p.2) ∧
    dispatch_request 60 (some [((50 : Int), (1 : Nat))]) (200, "ip route payload") =
      (429, "过多的错误尝试，请稍后重试。") :=
  ⟨⟨(50, 1), by decide, by decide, by decide⟩,
    lockout_service_wide 60 [(50, 1)] (200, "ip route payload")
      ⟨(50, 1), by decide, by decide, by decide⟩⟩

/-! ### Claim C1: the GitHub helper `asyncio_action.py`

The module defines `get_repos` TWICE.  The first definition (lines
103-124) pages through `GET /user/repos` with `per_page=100`; the second
definition (lines 196-214) performs a single request to
`GET /users/{username}/repos` and returns its JSON (or `None` on a
non-200 status).  At module load time the second definition rebinds the
name, so `main` (line 222, `await get_repos(USERNAME, TOKEN)`) calls the
single-request version; the paginating version is unreachable.

Repositories are opaque records, modelled as `Nat`.  Each collector also
returns the trace of HTTP requests it issued. -/

structure GhRequest where
  url : String
  page : Nat
  per_page : Nat
deriving DecidableEq

def BASE_URL : String := "https://api.github.com"

/-- The FIRST `get_repos` definition (lines 103-124, shadowed at load
time): loop requesting page 1, 2, ... of `GET /user/repos` with
`per_page=100`, extending the accumulator, and break as soon as
`make_request` yields `None` (failed) or an empty list (`if not data`).
The Python loop is unbounded; `fuel` bounds the recursion in Lean and is
irrelevant once an empty/failed page occurs within it. -/
def get_repos_paged_aux (fetch : Nat → Option (List Nat)) :
    Nat → Nat → List Nat → List GhRequest → List Nat × List GhRequest
  | 0, _, acc, trace => (acc, trace)
  | Nat.succ fuel, page, acc, trace =>
    let req : GhRequest := { url := BASE_URL ++ "/user/repos", page := page, per_page := 100 }
    match fetch page with
    | none => (acc, trace ++ [req])
    | some [] => (acc, trace ++ [req])
    | some data => get_repos_paged_aux fetch fuel (page + 1) (acc ++ data) (trace ++ [req])

def get_repos_paged (fetch : Nat → Option (List Nat)) (fuel : Nat) :
    List Nat × List GhRequest :=
  get_repos_paged_aux fetch fuel 1 [] []

/-- The SECOND `get_repos` definition (lines 196-214), the one the name
resolves to when `main` runs: a single request to
`GET /users/{username}/repos`, returning the body on HTTP 200 and
`None` otherwise. -/
def get_repos (username : String) (respond : String → Option (List Nat)) :
    Option (List Nat) × List String :=
  (respond (BASE_URL ++ "/users/" ++ username ++ "/repos"),
   [BASE_URL ++ "/users/" ++ username ++ "/repos"])

/-- A mocked account with 150 repositories listed across pages of
100 and 50; every later page is empty. -/
def mockPages (page : Nat) : Option (List Nat) :=
  if page = 1 then some (List.range 100)
  else if page = 2 then some ((List.range 50).map (fun n => n + 100))
  else some []

/-- The same mocked account seen through the unpaginated per-user
listing endpoint: a single response carrying the first result page. -/
def mockRespond (url : String) : Option (List Nat) :=
  if url = BASE_URL ++ "/users/happy/repos" then some (List.range 100) else none

/-- C1 counterexample: the repository collector actually used by `main`
is the shadowing redefinition of `get_repos`: on the mocked
150-repository listing it issues exactly one request — to
`/users/happy/repos`, not to `/user/repos` — and returns 100 records,
not 150; it does not page at all. -/
theorem get_repos_main_does_not_paginate :
    (get_repos "happy" mockRespond).2 = [BASE_URL ++ "/users/happy/repos"] ∧
    ((get_repos "happy" mockRespond).1.getD []).length = 100 ∧
    ((get_repos "happy" mockRespond).1.getD []).length ≠ 150 := by
  refine ⟨by decide, by decide, by decide⟩

set_option maxRecDepth 4000 in
/-- C1 (amended): the module binds `get_repos` twice; the paginating
first definition is shadowed by the second before `main` runs.  The
shadowed paginating collector, run on the mocked 150-repository listing,
requests `GET /user/repos` pages 1, 2, 3 at 100 per page, stops exactly
at the empty page 3, and returns exactly 150 unique repository records;
the collector `main` actually calls issues exactly one unpaginated
request per invocation. -/
theorem get_repos_paged_collects_150 :
    (get_repos_paged mockPages 10).1 = List.range 150 ∧
    (get_repos_paged mockPages 10).1.Nodup ∧
    (get_repos_paged mockPages 10).1.length = 150 ∧
    (get_repos_paged mockPages 10).2 =
      [{ url := BASE_URL ++ "/user/repos", page := 1, per_page := 100 },
       { url := BASE_URL ++ "/user/repos", page := 2, per_page := 100 },
       { url := BASE_URL ++ "/user/repos", page := 3, per_page := 100 }] ∧
    (∀ (u : String) (r : String → Option (List Nat)), (get_repos u r).2.length = 1) := by
  refine ⟨by decide, by decide, by decide, by decide, fun u r => rfl⟩

/-! ### Claim C5: the novel downloader `fanqie_download` of `test.py`

Lines 65-98: `item_ids` is extracted from the metadata page, then
REVERSED IN PLACE (`item_ids.reverse()`, line 80) before download; the
concatenation loop (`for id in item_ids:`, line 84) iterates the SAME
reversed list, reading `./小说/{id}.txt`, appending it to the output
file and removing the temporary file; a chapter whose temporary file
cannot be read is skipped (`except: print(f'{id}  false')`).  The
per-chapter file contents after the concurrent downloads are modelled
as a map `chapter : Nat → Option String` (`none` = missing/unreadable
temporary file); completion order of the downloads does not appear,
because the loop reads files purely by chapter id. -/

theorem string_append_assoc (a b c : String) : a ++ b ++ c = a ++ (b ++ c) := by
  apply String.ext
  simp

/-- The contents of chapters `ids`, concatenated in the order given. -/
def chaptersConcat (chapter : Nat → Option String) : List Nat → String
  | [] => ""
  | i :: rest => ((chapter i).getD "") ++ chaptersConcat chapter rest

/-- One iteration of the concatenation loop of `fanqie_download`. -/
def fanqie_step (chapter : Nat → Option String) (acc : String × List Nat) (id : Nat) :
    String × List Nat :=
  match chapter id with
  | some text => (acc.1 ++ text, acc.2 ++ [id])
  | none => acc

/-- The finalisation phase of `fanqie_download`: the output-file text
and the list of removed temporary files, driven by the in-place-reversed
`item_ids`. -/
def fanqie_finalize (item_ids : List Nat) (chapter : Nat → Option String) :
    String × List Nat :=
  item_ids.reverse.foldl (fanqie_step chapter) ("", [])

theorem fanqie_fold (chapter : Nat → Option String) (l : List Nat) :
    ∀ (s : String) (r : List Nat),
      l.foldl (fanqie_step chapter) (s, r) =
        (s ++ chaptersConcat chapter l, r ++ l.filter (fun i => (chapter i).isSome)) := by
  induction l with
  | nil => intro s r; simp [chaptersConcat]
  | cons i rest ih =>
    intro s r
    cases h : chapter i with
    | none =>
      simp [List.foldl_cons, fanqie_step, h, ih, chaptersConcat, List.filter_cons,
        string_append_assoc]
    | some t =>
      simp [List.foldl_cons, fanqie_step, h, ih, chaptersConcat, List.filter_cons,
        string_append_assoc]

def chapterMap3 : Nat → Option String :=
  fun i => if i = 1 then some "a" else if i = 2 then some "b"
    else if i = 3 then some "c" else none

/-- C5 counterexample: with metadata chapter order `[1, 2, 3]` and
chapter contents `a`, `b`, `c`, the final file reads `cba` — the
REVERSED order — not the concatenation `abc` in the original
(un-reversed) chapter-ID order claimed. -/
theorem fanqie_concat_not_original_order :
    (fanqie_finalize [1, 2, 3] chapterMap3).1 = "cba" ∧
    chaptersConcat chapterMap3 [1, 2, 3] = "abc" ∧
    (fanqie_finalize [1, 2, 3] chapterMap3).1 ≠ chaptersConcat chapterMap3 [1, 2, 3] := by
  refine ⟨by decide, by decide, by decide⟩

/-- C5 (amended): after all chapter downloads complete, the final output
file is the concatenation of the temporary per-chapter files in the
REVERSED chapter-ID order (the same in-place-reversed list that drove
the downloads), regardless of the completion order of the concurrent
downloads, and every successfully concatenated temporary chapter file is
deleted as it is consumed (unreadable ones are skipped and not
deleted). -/
theorem fanqie_finalize_spec (item_ids : List Nat) (chapter : Nat → Option String) :
    (fanqie_finalize item_ids chapter).1 = chaptersConcat chapter item_ids.reverse ∧
    (fanqie_finalize item_ids chapter).2 =
      item_ids.reverse.filter (fun i => (chapter i).isSome) := by
  unfold fanqie_finalize
  rw [fanqie_fold chapter item_ids.reverse "" []]
  simp
